import Mathlib

/-!
Verification of the CSV bank-statement import pipeline of the canopy
repository (`backend/services/csv_parser.py` together with the pydantic
models in `backend/models/csv_import.py` and `backend/models/transaction.py`).

The Python code is embedded shallowly:

* Python `float` amounts are modelled as exact rationals (`ℚ`); the float
  literal `0.01` of the duplicate tolerance is modelled as `1/100`.
* `datetime` values are modelled as an integer timestamp (`Int`), a whole
  number of seconds; `datetime.date()` (the calendar day) is the floor
  division by 86400.  `datetime.strptime` results are encoded via an
  order-preserving injection of (year, month, day) triples.
* `datetime.now()` is made explicit: `parse_csv_file` receives the current
  time `now` as an extra argument and threads it to the one place the
  Python code consults the clock (the per-row exception handler).
* Fallible Python code (raising `ValueError` / `AttributeError`) is
  modelled with `Except String`; the caller of `_parse_row` catches the
  error exactly as the Python `try/except` does.
* Python string primitives (`str.strip`, `str.replace`, `str.lower`,
  `str.split`, `float(...)`) are reimplemented over `List Char` so that
  every definition evaluates inside the kernel.  `float(...)` is modelled
  for plain decimal strings (optional sign, digits, one optional dot);
  `strptime` is modelled for the `%Y`/`%m`/`%d` directives actually used
  by the repository, following CPython's `_strptime` regexes without
  backtracking.
* `csv.DictReader` is modelled with a quote-aware character state machine:
  the first record gives the field names, blank records are skipped, short
  records pad the missing fields with Python `None` (restval), long
  records collect the extra values under the `None` key (restkey).
-/

set_option maxRecDepth 10000
set_option linter.unnecessarySeqFocus false
set_option linter.unusedVariables false

namespace Canopy

/-! ## Python string primitives -/

/-- Python `str.strip()` (ASCII whitespace). -/
def pyStrip (s : String) : String :=
  ⟨(((s.toList.dropWhile Char.isWhitespace).reverse.dropWhile Char.isWhitespace).reverse)⟩

/-- Python `str.lower()` (ASCII range, as needed by the repository). -/
def pyLower (s : String) : String := ⟨s.toList.map Char.toLower⟩

/-- Python `str.upper()` (ASCII range, as needed by the repository). -/
def pyUpper (s : String) : String := ⟨s.toList.map Char.toUpper⟩

/-- Fuel-indexed worker for `pyReplace`; the fuel starts at the length of the
input, which bounds the number of recursive steps. -/
def replaceGo (pat rep : List Char) : Nat → List Char → List Char
  | _, [] => []
  | 0, l => l
  | Nat.succ fuel, c :: rest =>
    if pat ≠ [] ∧ pat.isPrefixOf (c :: rest) then
      rep ++ replaceGo pat rep fuel (rest.drop (pat.length - 1))
    else
      c :: replaceGo pat rep fuel rest

/-- Python `s.replace(pat, rep)`: replace every non-overlapping occurrence,
left to right (the repository only ever replaces non-empty literals). -/
def pyReplace (s pat rep : String) : String :=
  ⟨replaceGo pat.toList rep.toList s.toList.length s.toList⟩

/-- Fuel-indexed worker for `pySplit`. -/
def splitGo (sep : List Char) : Nat → List Char → List (List Char)
  | _, [] => [[]]
  | 0, l => [l]
  | Nat.succ fuel, c :: rest =>
    if sep ≠ [] ∧ sep.isPrefixOf (c :: rest) then
      [] :: splitGo sep fuel (rest.drop (sep.length - 1))
    else
      match splitGo sep fuel rest with
      | [] => [[c]]
      | f :: fs => (c :: f) :: fs

/-- Python `s.split(sep)` for a non-empty separator; `"".split(sep) = [""]`. -/
def pySplit (s sep : String) : List String :=
  (splitGo sep.toList s.toList.length s.toList).map fun l => ⟨l⟩

/-- `pat` occurs as a contiguous substring of `s` (Python `pat in s`). -/
def containsSub (s pat : String) : Bool :=
  (List.range (s.toList.length + 1)).any fun i => pat.toList.isPrefixOf (s.toList.drop i)

/-! ## Decimal string to rational: Python `float(...)` on plain decimals -/

/-- Value of a digit list read in base 10. -/
def digitsVal (l : List Char) : Nat :=
  l.foldl (fun acc c => acc * 10 + (c.toNat - 48)) 0

/-- Python `float(s)` restricted to plain decimal strings: optional sign,
then digits with at most one dot and at least one digit; anything else
(exponents included, which the repository's inputs never contain) is a
parse failure, modelling `ValueError`. -/
def pyFloat? (s : String) : Option ℚ :=
  let l := s.toList.dropWhile Char.isWhitespace
  let l := (l.reverse.dropWhile Char.isWhitespace).reverse
  let (sign, l) : ℚ × List Char :=
    match l with
    | '-' :: rest => (-1, rest)
    | '+' :: rest => (1, rest)
    | _ => (1, l)
  let intPart := l.takeWhile Char.isDigit
  let rest := l.dropWhile Char.isDigit
  match rest with
  | [] => if intPart = [] then none else some (sign * digitsVal intPart)
  | '.' :: frac =>
    if frac.all Char.isDigit ∧ (intPart ≠ [] ∨ frac ≠ []) then
      some (sign * ((digitsVal intPart : ℚ) + (digitsVal frac : ℚ) / (10 : ℚ) ^ frac.length))
    else none
  | _ => none

/-! ## Dates: `datetime.strptime` for the `%Y`/`%m`/`%d` directives -/

/-- A `datetime` value: whole seconds on an order-preserving axis. -/
abbrev DateTime := Int

/-- Python `dt.date()`: the calendar day of a datetime value. -/
def calDay (t : DateTime) : Int := Int.fdiv t 86400

/-- CPython `_strptime` regex for `%Y`: exactly four digits. -/
def matchYear : List Char → Option (Nat × List Char)
  | c1 :: c2 :: c3 :: c4 :: rest =>
    if c1.isDigit ∧ c2.isDigit ∧ c3.isDigit ∧ c4.isDigit then
      some ((((c1.toNat - 48) * 10 + (c2.toNat - 48)) * 10 + (c3.toNat - 48)) * 10
        + (c4.toNat - 48), rest)
    else none
  | _ => none

/-- CPython `_strptime` regex for `%m`: `1[0-2] | 0[1-9] | [1-9]`. -/
def matchMonth : List Char → Option (Nat × List Char)
  | '1' :: c :: rest =>
    if '0' ≤ c ∧ c ≤ '2' then some (10 + (c.toNat - 48), rest)
    else some (1, c :: rest)
  | '0' :: c :: rest => if '1' ≤ c ∧ c ≤ '9' then some (c.toNat - 48, rest) else none
  | c :: rest => if '1' ≤ c ∧ c ≤ '9' then some (c.toNat - 48, rest) else none
  | [] => none

/-- CPython `_strptime` regex for `%d`: `3[01] | [12][0-9] | 0[1-9] | [1-9]`. -/
def matchDay : List Char → Option (Nat × List Char)
  | '3' :: c :: rest =>
    if c = '0' ∨ c = '1' then some (30 + (c.toNat - 48), rest) else some (3, c :: rest)
  | '1' :: c :: rest => if c.isDigit then some (10 + (c.toNat - 48), rest) else some (1, c :: rest)
  | '2' :: c :: rest => if c.isDigit then some (20 + (c.toNat - 48), rest) else some (2, c :: rest)
  | '0' :: c :: rest => if '1' ≤ c ∧ c ≤ '9' then some (c.toNat - 48, rest) else none
  | c :: rest => if '1' ≤ c ∧ c ≤ '9' then some (c.toNat - 48, rest) else none
  | [] => none

/-- Accumulated `%Y`/`%m`/`%d` captures while running a format string. -/
structure StrpState where
  y : Option Nat
  m : Option Nat
  d : Option Nat
deriving DecidableEq

/-- Run a `strptime` format over the input; the whole input must be consumed
(CPython raises when characters remain), unknown directives fail (CPython
raises on a bad directive). -/
def runFmt : List Char → List Char → StrpState → Option StrpState
  | [], [], st => some st
  | [], _ :: _, _ => none
  | '%' :: dir :: fmtRest, input, st =>
    match dir with
    | 'Y' =>
      match matchYear input with
      | some (v, rest) => runFmt fmtRest rest { y := some v, m := st.m, d := st.d }
      | none => none
    | 'm' =>
      match matchMonth input with
      | some (v, rest) => runFmt fmtRest rest { y := st.y, m := some v, d := st.d }
      | none => none
    | 'd' =>
      match matchDay input with
      | some (v, rest) => runFmt fmtRest rest { y := st.y, m := st.m, d := some v }
      | none => none
    | _ => none
  | ['%'], _, _ => none
  | c :: fmtRest, i :: inputRest, st =>
    if c = i then runFmt fmtRest inputRest st else none
  | _ :: _, [], _ => none

/-- Gregorian leap year. -/
def isLeap (y : Nat) : Bool := (y % 4 = 0 ∧ y % 100 ≠ 0) ∨ y % 400 = 0

/-- Days in a month of a given year. -/
def daysInMonth (y m : Nat) : Nat :=
  if m = 2 then (if isLeap y then 29 else 28)
  else if m = 4 ∨ m = 6 ∨ m = 9 ∨ m = 11 then 30
  else 31

/-- Order-preserving injection of a calendar day into the timestamp axis;
the time of day produced by `strptime` is midnight. -/
def encodeDate (y m d : Nat) : DateTime :=
  (((y * 12 + (m - 1)) * 31 + (d - 1)) * 86400 : Nat)

/-- `datetime.strptime(s, fmt)`: run the format, default the missing pieces
to 1900-01-01 as CPython does, and validate the calendar day (building the
`datetime` raises for an impossible day such as Feb 30). -/
def strptime (s fmt : String) : Option DateTime :=
  match runFmt fmt.toList s.toList { y := none, m := none, d := none } with
  | none => none
  | some st =>
    let y := st.y.getD 1900
    let m := st.m.getD 1
    let d := st.d.getD 1
    if 1 ≤ y ∧ d ≤ daysInMonth y m then some (encodeDate y m d) else none

/-! ## Data model (`backend/models/csv_import.py`, `backend/models/transaction.py`) -/

/-- `TransactionType` (`backend/models/transaction.py`). -/
inductive TransactionType where
  | income
  | expense
  | transfer
  | buy
  | sell
deriving DecidableEq, Repr

/-- The `.value` string of a `TransactionType` member. -/
def TransactionType.value : TransactionType → String
  | .income => "income"
  | .expense => "expense"
  | .transfer => "transfer"
  | .buy => "buy"
  | .sell => "sell"

/-- `BankFormat` (`backend/models/csv_import.py`). -/
inductive BankFormat where
  | generic | monarch
  | chase | bank_of_america | wells_fargo | citibank | capital_one | amex | discover | schwab
  | td_bank | rbc | scotiabank | bmo | wealthsimple | wealthsimple_trade
  | nubank | nubank_investments | clear | clear_positions | xp | xp_positions | b3_cei
  | itau | bradesco | santander
  | wise
  | custom
deriving DecidableEq, Repr

/-- `FieldMapping` (`backend/models/csv_import.py`), with the pydantic
defaults. -/
structure FieldMapping where
  date_column : String
  description_column : String
  amount_column : Option String := none
  type_column : Option String := none
  category_column : Option String := none
  account_column : Option String := none
  currency_column : Option String := none
  balance_column : Option String := none
  debit_column : Option String := none
  credit_column : Option String := none
  transaction_id_column : Option String := none
  merchant_column : Option String := none
  original_statement_column : Option String := none
  notes_column : Option String := none
  tags_column : Option String := none
  ticker_column : Option String := none
  shares_column : Option String := none
  price_column : Option String := none
  fees_column : Option String := none
  operation_column : Option String := none
  date_format : String := "%Y-%m-%d"
  amount_is_absolute : Bool := false
  negative_means_expense : Bool := true
  decimal_separator : String := "."
deriving DecidableEq, Repr

/-- `CSVImportConfig` (`backend/models/csv_import.py`). -/
structure CSVImportConfig where
  bank_format : BankFormat := .generic
  field_mapping : FieldMapping
  default_currency : String := "USD"
  default_account : Option String := none
  skip_rows : Nat := 0
  skip_duplicates : Bool := true
  date_range_start : Option DateTime := none
  date_range_end : Option DateTime := none
deriving DecidableEq, Repr

/-- `Transaction` (`backend/models/transaction.py`): the shape of the
already-persisted records handed to duplicate detection. -/
structure Transaction where
  id : Option Int := none
  description : String
  amount : ℚ
  currency : String := "USD"
  type : TransactionType
  category : Option String := none
  date : DateTime
  account : Option String := none
  merchant : Option String := none
  original_statement : Option String := none
  notes : Option String := none
  tags : List String := []
  ticker : Option String := none
  shares : Option ℚ := none
  price_per_share : Option ℚ := none
deriving DecidableEq, Repr

/-- One row as produced by `csv.DictReader`: `fields` pairs each header
name with its value (`none` models Python `None`, the restval filled in
for a short record); `extras` holds the values beyond the header length
(Python stores them under the `None` restkey). -/
structure Row where
  fields : List (String × Option String)
  extras : List String
deriving DecidableEq, Repr

/-- `TransactionPreview` (`backend/models/csv_import.py`). -/
structure TransactionPreview where
  row_number : Nat
  description : String
  amount : ℚ
  currency : String
  type : TransactionType
  category : Option String := none
  date : DateTime
  account : Option String := none
  merchant : Option String := none
  original_statement : Option String := none
  notes : Option String := none
  tags : List String := []
  ticker : Option String := none
  shares : Option ℚ := none
  price_per_share : Option ℚ := none
  fees : Option ℚ := none
  is_duplicate : Bool := false
  duplicate_reason : Option String := none
  has_error : Bool := false
  error_message : Option String := none
  raw_data : Row
deriving DecidableEq, Repr

/-- `CSVImportPreview` (`backend/models/csv_import.py`); the `date_range`
dict is the `(start, end)` pair. -/
structure CSVImportPreview where
  total_rows : Nat
  valid_rows : Nat
  duplicate_rows : Nat
  error_rows : Nat
  transactions : List TransactionPreview
  detected_currency : Option String := none
  detected_account : Option String := none
  date_range : Option (DateTime × DateTime) := none
deriving DecidableEq, Repr

/-- `TransactionCreate` (`backend/models/transaction.py`): the commit-stage
output record.  It has no `fees` field. -/
structure TransactionCreate where
  description : String
  amount : ℚ
  currency : String := "USD"
  type : TransactionType
  category : Option String := none
  date : Option DateTime := none
  account : Option String := none
  merchant : Option String := none
  original_statement : Option String := none
  notes : Option String := none
  tags : List String := []
  ticker : Option String := none
  shares : Option ℚ := none
  price_per_share : Option ℚ := none
deriving DecidableEq, Repr

/-! ## CSV reading (`csv.DictReader(io.StringIO(file_content))`) -/

/-- Character state machine for the comma-separated, double-quote-escaped
convention: `rs` collects finished records (reversed), `fs` the finished
fields of the current record (reversed), `cur` the current field
(reversed), `inQ` whether inside a quoted field. -/
def csvGo : List (List String) → List String → List Char → Bool → List Char →
    List (List String)
  | rs, fs, cur, true, '"' :: '"' :: rest => csvGo rs fs ('"' :: cur) true rest
  | rs, fs, cur, true, '"' :: rest => csvGo rs fs cur false rest
  | rs, fs, cur, true, c :: rest => csvGo rs fs (c :: cur) true rest
  | rs, fs, cur, false, '"' :: rest =>
    if cur = [] then csvGo rs fs cur true rest
    else csvGo rs fs ('"' :: cur) false rest
  | rs, fs, cur, false, ',' :: rest => csvGo rs (String.mk cur.reverse :: fs) [] false rest
  | rs, fs, cur, false, '\r' :: '\n' :: rest => csvGo (endRec fs cur :: rs) [] [] false rest
  | rs, fs, cur, false, '\n' :: rest => csvGo (endRec fs cur :: rs) [] [] false rest
  | rs, fs, cur, false, '\r' :: rest => csvGo (endRec fs cur :: rs) [] [] false rest
  | rs, fs, cur, false, c :: rest => csvGo rs fs (c :: cur) false rest
  | rs, fs, cur, _, [] =>
    if fs = [] ∧ cur = [] then rs.reverse
    else ((endRec fs cur) :: rs).reverse
where
  /-- Close the current record; a line with no characters at all is the
  empty record `[]` (which `DictReader` skips). -/
  endRec (fs : List String) (cur : List Char) : List String :=
    if fs = [] ∧ cur = [] then [] else (String.mk cur.reverse :: fs).reverse

/-- All CSV records of the file text. -/
def csvRecords (file_content : String) : List (List String) :=
  csvGo [] [] [] false file_content.toList

/-- Pair each header name with the value at its position; missing trailing
values become Python `None` (the `DictReader` restval). -/
def buildFields : List String → List String → List (String × Option String)
  | [], _ => []
  | h :: hs, [] => (h, none) :: buildFields hs []
  | h :: hs, v :: vs => (h, some v) :: buildFields hs vs

/-- `list(csv.DictReader(io.StringIO(file_content)))`: first record is the
header, blank records are skipped, each remaining record becomes a `Row`. -/
def dictRows (file_content : String) : List Row :=
  match csvRecords file_content with
  | [] => []
  | header :: rest =>
    (rest.filter fun r => r ≠ []).map fun r =>
      { fields := buildFields header r, extras := r.drop header.length }

/-- `dict.get` on a row, last binding wins (as `dict(zip(...))` keeps the
last value for a duplicated header name). -/
def rowLookup (fields : List (String × Option String)) (k : String) :
    Option (Option String) :=
  ((fields.filter fun p => p.1 = k).getLast?).map fun p => p.2

/-- `row.get(col, "").strip()`: a missing key defaults to `""`; a `None`
value (short record) or the restkey list (long record, looked up when the
configured column is Python `None`) has no `.strip()` and raises
`AttributeError`. -/
def rowGetStrip (row : Row) (col : Option String) : Except String String :=
  match col with
  | some c =>
    match rowLookup row.fields c with
    | some (some s) => .ok (pyStrip s)
    | some none => .error "AttributeError: NoneType object has no attribute strip"
    | none => .ok ""
  | none =>
    if row.extras = [] then .ok ""
    else .error "AttributeError: list object has no attribute strip"

/-! ## `CSVParserService` (`backend/services/csv_parser.py`) -/

/-- Python truthiness of an `Optional[str]`: `None` and `""` are falsy. -/
def truthy : Option String → Bool
  | none => false
  | some s => s ≠ ""

/-- `_parse_brazilian_amount` (lines 283-312): strip `R$`/`BRL`/spaces,
parentheses or a leading minus mean negative, drop `.` thousand
separators, turn the `,` decimal separator into `.`, then `float(...)`
with `ValueError` degrading to `0.0`. -/
def _parse_brazilian_amount (amount_str : String) : ℚ :=
  if amount_str = "" then 0
  else
    let s := pyStrip amount_str
    let s := pyReplace (pyReplace (pyReplace s "R$" "") "BRL" "") " " ""
    let (is_negative, s) : Bool × String :=
      if s.toList.head? = some '(' ∧ s.toList.getLast? = some ')' then
        (true, ⟨(s.toList.drop 1).dropLast⟩)
      else (false, s)
    let (is_negative, s) : Bool × String :=
      if s.toList.head? = some '-' then (true, ⟨s.toList.drop 1⟩)
      else (is_negative, s)
    let s := pyReplace (pyReplace s "." "") "," "."
    match pyFloat? s with
    | some result => if is_negative then -result else result
    | none => 0

/-- `_parse_amount` (lines 603-623): strip currency symbols and spaces,
drop `,` thousand separators, parentheses mean negative, then
`float(...)` with `ValueError` degrading to `0.0`. -/
def _parse_amount (amount_str : String) : ℚ :=
  if amount_str = "" then 0
  else
    let s := pyStrip amount_str
    let s := ["$", "€", "£", "R$", "C$", "CAD", "USD", "BRL", " "].foldl
      (fun acc sym => pyReplace acc sym "") s
    let s := pyReplace s "," ""
    let s : String :=
      if s.toList.head? = some '(' ∧ s.toList.getLast? = some ')' then
        ⟨'-' :: (s.toList.drop 1).dropLast⟩
      else s
    match pyFloat? s with
    | some v => v
    | none => 0

/-- `_infer_type_from_value` (lines 625-643); the `config` argument is
accepted and ignored exactly as in the source. -/
def _infer_type_from_value (type_value : String) (_config : CSVImportConfig) :
    TransactionType :=
  let tv := pyLower type_value
  if ["buy", "bought", "purchase", "compra"].any (fun word => containsSub tv word) then .buy
  else if ["sell", "sold", "venda"].any (fun word => containsSub tv word) then .sell
  else if ["credit", "deposit", "payment received", "income", "refund", "dividend"].any
      (fun word => containsSub tv word) then .income
  else if ["debit", "withdrawal", "payment", "purchase", "expense"].any
      (fun word => containsSub tv word) then .expense
  else if ["transfer", "xfer"].any (fun word => containsSub tv word) then .transfer
  else .expense

/-- Render `tx.id` the way the f-string in `_check_duplicate` does. -/
def pyShowId : Option Int → String
  | none => "None"
  | some n => toString n

/-- `_check_duplicate` (lines 645-660): first existing transaction on the
same calendar day, with amount within `0.01`, and case-insensitively equal
description, wins. -/
def _check_duplicate (description : String) (amount : ℚ) (date : DateTime)
    (existing_transactions : List Transaction) : Bool × Option String :=
  match existing_transactions with
  | [] => (false, none)
  | tx :: rest =>
    if calDay tx.date = calDay date ∧ |tx.amount - amount| < 1 / 100 ∧
        pyLower tx.description = pyLower description then
      (true, some ("Matches existing transaction ID " ++ pyShowId tx.id))
    else
      _check_duplicate description amount date rest

/-- The Brazilian-format membership test of `_parse_row` (lines 407-411). -/
def isBrazilian (config : CSVImportConfig) : Bool :=
  config.bank_format ∈ [BankFormat.nubank, .nubank_investments, .clear,
    .clear_positions, .xp, .xp_positions, .b3_cei]

/-- The operation keyword vocabularies of `_parse_row` (lines 468-475). -/
def buyOps : List String := ["c", "compra", "buy", "bought", "deposit", "contribution"]

/-- See `buyOps`. -/
def sellOps : List String := ["v", "venda", "sell", "sold", "withdrawal"]

/-- See `buyOps`. -/
def incomeOps : List String := ["dividendo", "dividend", "jcp", "rendimento"]

/-- See `buyOps`. -/
def transferOps : List String := ["transfer", "transferência"]

/-- Lines 433-486 of `_parse_row`: resolve the (still signed, except in the
sign-inference branch which takes the absolute value) amount and the
transaction type, from the debit/credit pair or from the single amount
column plus the operation column, the type column, or the sign. -/
def amountAndType (row : Row) (config : CSVImportConfig) :
    Except String (ℚ × TransactionType) := do
  let mapping := config.field_mapping
  if truthy mapping.debit_column ∧ truthy mapping.credit_column then
    let debit_str ← rowGetStrip row mapping.debit_column
    let credit_str ← rowGetStrip row mapping.credit_column
    let debit : ℚ := if debit_str ≠ "" then
        (if isBrazilian config then _parse_brazilian_amount debit_str
         else _parse_amount debit_str) else 0
    let credit : ℚ := if credit_str ≠ "" then
        (if isBrazilian config then _parse_brazilian_amount credit_str
         else _parse_amount credit_str) else 0
    if debit > 0 then pure (debit, TransactionType.expense)
    else if credit > 0 then pure (credit, TransactionType.income)
    else pure (0, TransactionType.expense)
  else
    let amount_str ← rowGetStrip row mapping.amount_column
    let amount : ℚ := if isBrazilian config then _parse_brazilian_amount amount_str
      else _parse_amount amount_str
    if truthy mapping.operation_column then
      let op_value0 ← rowGetStrip row mapping.operation_column
      let op_value := pyLower op_value0
      if op_value ∈ buyOps then pure (amount, TransactionType.buy)
      else if op_value ∈ sellOps then pure (amount, TransactionType.sell)
      else if op_value ∈ incomeOps then pure (amount, TransactionType.income)
      else if op_value ∈ transferOps then pure (amount, TransactionType.transfer)
      else pure (amount, TransactionType.expense)
    else if truthy mapping.type_column then
      let type_value0 ← rowGetStrip row mapping.type_column
      let type_value := pyLower type_value0
      pure (amount, _infer_type_from_value type_value config)
    else
      let transaction_type := if mapping.negative_means_expense then
          (if amount < 0 then TransactionType.expense else TransactionType.income)
        else
          (if amount < 0 then TransactionType.income else TransactionType.expense)
      pure (|amount|, transaction_type)

/-- `ticker` extraction (lines 494-495): stripped, upper-cased, `or None`. -/
def tickerOf (row : Row) (mapping : FieldMapping) : Except String (Option String) :=
  if truthy mapping.ticker_column then do
    let s ← rowGetStrip row mapping.ticker_column
    let u := pyUpper s
    pure (if u = "" then none else some u)
  else pure none

/-- `shares` extraction (lines 497-503). -/
def sharesOf (row : Row) (config : CSVImportConfig) : Except String (Option ℚ) :=
  if truthy config.field_mapping.shares_column then do
    let shares_str ← rowGetStrip row config.field_mapping.shares_column
    pure (if shares_str ≠ "" then
        some (if isBrazilian config then _parse_brazilian_amount shares_str
          else _parse_amount shares_str)
      else none)
  else pure none

/-- `price_per_share` extraction (lines 505-511). -/
def priceOf (row : Row) (config : CSVImportConfig) : Except String (Option ℚ) :=
  if truthy config.field_mapping.price_column then do
    let price_str ← rowGetStrip row config.field_mapping.price_column
    pure (if price_str ≠ "" then
        some (if isBrazilian config then _parse_brazilian_amount price_str
          else _parse_amount price_str)
      else none)
  else pure none

/-- `fees` extraction (lines 513-519): always stored as an absolute value. -/
def feesOf (row : Row) (config : CSVImportConfig) : Except String (Option ℚ) :=
  if truthy config.field_mapping.fees_column then do
    let fees_str ← rowGetStrip row config.field_mapping.fees_column
    pure (if fees_str ≠ "" then
        some (|if isBrazilian config then _parse_brazilian_amount fees_str
          else _parse_amount fees_str|)
      else none)
  else pure none

/-- `category` extraction (lines 522-524). -/
def categoryOf (row : Row) (mapping : FieldMapping) : Except String (Option String) :=
  if truthy mapping.category_column then do
    let s ← rowGetStrip row mapping.category_column
    pure (if s = "" then none else some s)
  else pure none

/-- `account` extraction (lines 527-529), falling back to the configured
default account. -/
def accountOf (row : Row) (config : CSVImportConfig) : Except String (Option String) :=
  if truthy config.field_mapping.account_column then do
    let s ← rowGetStrip row config.field_mapping.account_column
    pure (if s = "" then config.default_account else some s)
  else pure config.default_account

/-- `currency` extraction (lines 532-534), falling back to the configured
default currency. -/
def currencyOf (row : Row) (config : CSVImportConfig) : Except String String :=
  if truthy config.field_mapping.currency_column then do
    let s ← rowGetStrip row config.field_mapping.currency_column
    pure (if s = "" then config.default_currency else s)
  else pure config.default_currency

/-- `merchant` extraction (lines 537-539). -/
def merchantOf (row : Row) (mapping : FieldMapping) : Except String (Option String) :=
  if truthy mapping.merchant_column then do
    let s ← rowGetStrip row mapping.merchant_column
    pure (if s = "" then none else some s)
  else pure none

/-- `original_statement` extraction (lines 541-543). -/
def origStmtOf (row : Row) (mapping : FieldMapping) : Except String (Option String) :=
  if truthy mapping.original_statement_column then do
    let s ← rowGetStrip row mapping.original_statement_column
    pure (if s = "" then none else some s)
  else pure none

/-- `notes` extraction (lines 545-547). -/
def notesOf (row : Row) (mapping : FieldMapping) : Except String (Option String) :=
  if truthy mapping.notes_column then do
    let s ← rowGetStrip row mapping.notes_column
    pure (if s = "" then none else some s)
  else pure none

/-- `tags` extraction (lines 549-553): semicolons become commas, split on
commas, each tag stripped, empties dropped. -/
def tagsOf (row : Row) (mapping : FieldMapping) : Except String (List String) :=
  if truthy mapping.tags_column then do
    let tags_str ← rowGetStrip row mapping.tags_column
    pure (if tags_str ≠ "" then
        ((pySplit (pyReplace tags_str ";" ",") ",").map pyStrip).filter fun t => t ≠ ""
      else [])
  else pure []

/-- The date-range validation of `_parse_row` (lines 567-577): a second
violation overwrites the message of the first. -/
def dateRangeCheck (config : CSVImportConfig) (transaction_date : DateTime) :
    Bool × Option String :=
  let r1 : Bool × Option String :=
    match config.date_range_start with
    | some s0 =>
      if transaction_date < s0 then
        (true, some ("Date " ++ toString transaction_date ++
          " is before range start " ++ toString s0))
      else (false, none)
    | none => (false, none)
  match config.date_range_end with
  | some e0 =>
    if transaction_date > e0 then
      (true, some ("Date " ++ toString transaction_date ++
        " is after range end " ++ toString e0))
    else r1
  | none => r1

/-- The date parsing of `_parse_row` (lines 414-426): the configured format
first, then the fixed fallback list, else `ValueError`. -/
def parseDateFallback (date_str : String) (fmt : String) : Except String DateTime :=
  match strptime date_str fmt <|> strptime date_str "%Y-%m-%d" <|>
      strptime date_str "%m/%d/%Y" <|> strptime date_str "%d/%m/%Y" <|>
      strptime date_str "%Y/%m/%d" with
  | some d => .ok d
  | none => .error ("Could not parse date: " ++ date_str)

/-- `_parse_row` (lines 397-601). -/
def _parse_row (row : Row) (row_number : Nat) (config : CSVImportConfig)
    (existing_transactions : List Transaction) : Except String TransactionPreview := do
  let mapping := config.field_mapping
  let date_str ← rowGetStrip row (some mapping.date_column)
  let transaction_date ← parseDateFallback date_str mapping.date_format
  let description0 ← rowGetStrip row (some mapping.description_column)
  let description := if description0 = "" then "Imported Transaction" else description0
  let at_ ← amountAndType row config
  let ticker ← tickerOf row mapping
  let shares ← sharesOf row config
  let price_per_share ← priceOf row config
  let fees ← feesOf row config
  let category ← categoryOf row mapping
  let account ← accountOf row config
  let currency ← currencyOf row config
  let merchant ← merchantOf row mapping
  let original_statement ← origStmtOf row mapping
  let notes ← notesOf row mapping
  let tags ← tagsOf row mapping
  let dup := if config.skip_duplicates then
      _check_duplicate description at_.1 transaction_date existing_transactions
    else (false, none)
  let err := dateRangeCheck config transaction_date
  pure {
    row_number := row_number
    description := description
    amount := |at_.1|
    currency := currency
    type := at_.2
    category := category
    date := transaction_date
    account := account
    merchant := merchant
    original_statement := original_statement
    notes := notes
    tags := tags
    ticker := ticker
    shares := shares
    price_per_share := price_per_share
    fees := fees
    is_duplicate := dup.1
    duplicate_reason := dup.2
    has_error := err.1
    error_message := err.2
    raw_data := row }

/-- The error-flagged `TransactionPreview` built by the `except` branch of
`parse_csv_file` (lines 360-371); its `date` is `datetime.now()`. -/
def errorPreview (now : DateTime) (config : CSVImportConfig) (idx : Nat) (row : Row)
    (msg : String) : TransactionPreview :=
  { row_number := idx
    description := "Parse Error"
    amount := 0
    currency := config.default_currency
    type := TransactionType.expense
    date := now
    has_error := true
    error_message := some msg
    raw_data := row }

/-- The per-row loop of `parse_csv_file` (lines 345-372): each row yields
one preview; duplicate and error tallies accumulate; a raising row is
caught and recorded as an error preview. -/
def importLoop (config : CSVImportConfig) (existing_transactions : List Transaction)
    (now : DateTime) : List (Nat × Row) → List TransactionPreview × Nat × Nat
  | [] => ([], 0, 0)
  | (idx, row) :: rest =>
    let res := importLoop config existing_transactions now rest
    match _parse_row row idx config existing_transactions with
    | .ok t =>
      (t :: res.1, (if t.is_duplicate then 1 else 0) + res.2.1,
        (if t.has_error then 1 else 0) + res.2.2)
    | .error e =>
      (errorPreview now config idx row e :: res.1, res.2.1, 1 + res.2.2)

/-- The row list `parse_csv_file` iterates over: the `DictReader` rows with
the configured number of leading rows dropped (lines 322-337). -/
def prepRows (file_content : String) (config : CSVImportConfig) : List Row :=
  let rows := dictRows file_content
  if config.skip_rows > 0 then rows.drop config.skip_rows else rows

/-- `parse_csv_file` (lines 314-395), with the clock made explicit. -/
def parse_csv_file (file_content : String) (config : CSVImportConfig)
    (existing_transactions : List Transaction) (now : DateTime) : CSVImportPreview :=
  if (dictRows file_content).isEmpty then
    { total_rows := 0, valid_rows := 0, duplicate_rows := 0, error_rows := 0,
      transactions := [] }
  else
    let rows := prepRows file_content config
    let res := importLoop config existing_transactions now rows.enum
    let transactions := res.1
    let valid_rows := (transactions.filter fun t => !t.has_error).length
    let valid_dates := (transactions.filter fun t => !t.has_error).map fun t => t.date
    let date_range : Option (DateTime × DateTime) :=
      match valid_dates with
      | [] => none
      | d :: ds => some (ds.foldl min d, ds.foldl max d)
    { total_rows := rows.length
      valid_rows := valid_rows
      duplicate_rows := res.2.1
      error_rows := res.2.2
      transactions := transactions
      date_range := date_range }

/-- The `TransactionCreate` built for one kept preview row by
`create_transactions_from_preview` (lines 681-696); note that `fees` is
not among the copied fields. -/
def toCreate (tx_preview : TransactionPreview) : TransactionCreate :=
  { description := tx_preview.description
    amount := tx_preview.amount
    currency := tx_preview.currency
    type := tx_preview.type
    category := tx_preview.category
    date := some tx_preview.date
    account := tx_preview.account
    merchant := tx_preview.merchant
    original_statement := tx_preview.original_statement
    notes := tx_preview.notes
    tags := tx_preview.tags
    ticker := tx_preview.ticker
    shares := tx_preview.shares
    price_per_share := tx_preview.price_per_share }

/-- `create_transactions_from_preview` (lines 662-699). -/
def create_transactions_from_preview (preview : CSVImportPreview)
    (skip_duplicates : Bool) (skip_errors : Bool)
    (selected_rows : Option (List Nat)) : List TransactionCreate :=
  preview.transactions.filterMap fun tx_preview =>
    if skip_duplicates && tx_preview.is_duplicate then none
    else if skip_errors && tx_preview.has_error then none
    else if (match selected_rows with
        | some sel => !sel.contains tx_preview.row_number
        | none => false) then none
    else some (toCreate tx_preview)

/-! ## Concrete inputs used by counterexamples and witnesses -/

/-- A plain three-column mapping (date, description, single signed amount). -/
def exMapA : FieldMapping :=
  { date_column := "Date", description_column := "Description",
    amount_column := some "Amount" }

/-- A config whose date-range filter starts after the sample row's date;
duplicate detection is on (the pydantic default). -/
def exCfgA : CSVImportConfig :=
  { field_mapping := exMapA, date_range_start := some (encodeDate 2024 2 1) }

/-- One persisted transaction matching the sample row of `exTextA`. -/
def exExistingA : List Transaction :=
  [{ id := some 1, description := "Coffee", amount := 9 / 2,
     type := TransactionType.expense, date := encodeDate 2024 1 5 }]

/-- A one-row file whose row is simultaneously a duplicate of
`exExistingA` and a date-range error under `exCfgA`. -/
def exTextA : String := "Date,Description,Amount\n2024-01-05,Coffee,-4.50\n"

/-- The plain config without any date-range filter. -/
def exCfgB : CSVImportConfig := { field_mapping := exMapA }

/-- A one-row file whose date parses under no format, so the row raises. -/
def exTextBad : String := "Date,Description,Amount\nnotadate,Coffee,-4.50\n"

/-- A well-formed two-row file. -/
def exTextTwo : String :=
  "Date,Description,Amount\n2024-01-05,A,1.00\n2024-01-06,B,2.00\n"

/-- A mapping with no amount-resolution path: no amount column and no
debit/credit pair. -/
def noAmtMap : FieldMapping :=
  { date_column := "Date", description_column := "Description" }

/-- Config built on `noAmtMap`. -/
def noAmtCfg : CSVImportConfig := { field_mapping := noAmtMap }

/-- A one-row file for the no-amount-path configuration. -/
def noAmtText : String := "Date,Description\n2024-01-05,Coffee\n"

/-- The row of `noAmtText` as `DictReader` produces it. -/
def noAmtRow : Row :=
  { fields := [("Date", some "2024-01-05"), ("Description", some "Coffee")],
    extras := [] }

/-- A mapping with an operation column configured. -/
def opMap : FieldMapping :=
  { date_column := "Date", description_column := "Description",
    amount_column := some "Amount", operation_column := some "Op",
    negative_means_expense := false }

/-- Config built on `opMap`. -/
def opCfg : CSVImportConfig := { field_mapping := opMap }

/-- A row whose operation value matches none of the keyword sets and whose
amount is negative. -/
def opRow : Row :=
  { fields := [("Date", some "2024-01-05"), ("Description", some "X"),
      ("Amount", some "-5.00"), ("Op", some "Zzz")],
    extras := [] }

/-- An existing transaction whose currency differs from the candidate's. -/
def eurTx : Transaction :=
  { id := some 7, description := "Latte", amount := 10, currency := "EUR",
    type := TransactionType.expense, date := 86400 * 3 + 100 }

/-! ## Helper lemmas -/

/-- `Except.isOk`, spelled out so hypotheses about it are decidable. -/
def isOkE {α : Type} : Except String α → Bool
  | .ok _ => true
  | .error _ => false

theorem isOkE_iff {α : Type} {e : Except String α} :
    isOkE e = true ↔ ∃ a, e = Except.ok a := by
  cases e <;> simp [isOkE]

theorem exceptBind_ok {α β : Type} (e : Except String α) (f : α → Except String β)
    (b : β) : (e >>= f = Except.ok b) ↔ ∃ a, e = Except.ok a ∧ f a = Except.ok b := by
  cases e <;> simp [Bind.bind, Except.bind]

theorem exceptPure_ok {α : Type} (a b : α) :
    ((pure a : Except String α) = Except.ok b) ↔ a = b := by
  simp [pure, Except.pure]

theorem rowGetStrip_none_ok {row : Row} {s : String}
    (h : rowGetStrip row none = Except.ok s) : s = "" := by
  unfold rowGetStrip at h
  by_cases hx : row.extras = [] <;> simp [hx] at h
  exact h.symm

theorem countP_filter_not_add {α : Type} (l : List α) (p : α → Bool) :
    (l.filter fun a => !p a).length + l.countP p = l.length := by
  induction l with
  | nil => simp
  | cons a l ih =>
    by_cases h : p a <;>
      simp [List.countP_cons, List.filter_cons, h, ← ih] <;> omega

theorem countP_and_split {α : Type} (l : List α) (d e : α → Bool) :
    l.countP (fun a => d a && e a) + l.countP (fun a => d a && !e a) = l.countP d := by
  induction l with
  | nil => simp
  | cons a l ih =>
    by_cases hd : d a <;> by_cases he : e a <;>
      simp [List.countP_cons, hd, he, ← ih] <;> omega

theorem countP_not_and_split {α : Type} (l : List α) (d e : α → Bool) :
    l.countP (fun a => !d a && e a) + l.countP (fun a => d a && e a) = l.countP e := by
  induction l with
  | nil => simp
  | cons a l ih =>
    by_cases hd : d a <;> by_cases he : e a <;>
      simp [List.countP_cons, hd, he, ← ih] <;> omega

/-! ## Structural lemmas about the import loop -/

theorem importLoop_length (config : CSVImportConfig) (ex : List Transaction)
    (now : DateTime) (l : List (Nat × Row)) :
    (importLoop config ex now l).1.length = l.length := by
  induction l with
  | nil => rfl
  | cons p l ih =>
    obtain ⟨idx, row⟩ := p
    unfold importLoop
    cases _parse_row row idx config ex <;> simp [ih]

theorem importLoop_err_count (config : CSVImportConfig) (ex : List Transaction)
    (now : DateTime) (l : List (Nat × Row)) :
    (importLoop config ex now l).2.2 =
      (importLoop config ex now l).1.countP fun t => t.has_error := by
  induction l with
  | nil => rfl
  | cons p l ih =>
    obtain ⟨idx, row⟩ := p
    unfold importLoop
    cases h : _parse_row row idx config ex with
    | ok t =>
      by_cases ht : t.has_error <;> simp [List.countP_cons, ht, ih] <;> omega
    | error e => simp [List.countP_cons, errorPreview, ih]; omega

theorem importLoop_dup_count (config : CSVImportConfig) (ex : List Transaction)
    (now : DateTime) (l : List (Nat × Row)) :
    (importLoop config ex now l).2.1 =
      (importLoop config ex now l).1.countP fun t => t.is_duplicate := by
  induction l with
  | nil => rfl
  | cons p l ih =>
    obtain ⟨idx, row⟩ := p
    unfold importLoop
    cases h : _parse_row row idx config ex with
    | ok t =>
      by_cases ht : t.is_duplicate <;> simp [List.countP_cons, ht, ih] <;> omega
    | error e => simp [List.countP_cons, errorPreview, ih]

/-- Decomposition of a successful `_parse_row`: the preview's row number is
the passed index, its raw data is the row, its amount is the absolute value
of the resolved signed amount, its type is the resolved type, and its error
flag comes from the date-range check at its date. -/
theorem _parse_row_ok_spec {row : Row} {i : Nat} {config : CSVImportConfig}
    {ex : List Transaction} {t : TransactionPreview}
    (hok : _parse_row row i config ex = Except.ok t) :
    t.row_number = i ∧ t.raw_data = row ∧
      ∃ p, amountAndType row config = Except.ok p ∧ t.amount = |p.1| ∧
        t.type = p.2 ∧ t.has_error = (dateRangeCheck config t.date).1 := by
  unfold _parse_row at hok
  simp only [exceptBind_ok, exceptPure_ok] at hok
  obtain ⟨ds, -, dt, -, d0, -, p, hp, tk, -, sh, -, pr, -, fe, -, ca, -, ac, -, cu, -,
    me, -, os, -, no, -, tg, -, ht⟩ := hok
  subst ht
  exact ⟨rfl, rfl, p, hp, rfl, rfl, rfl⟩

/-- With no amount column configured and no debit/credit pair configured,
a successful amount resolution yields the signed amount `0`. -/
theorem amountAndType_no_amount {row : Row} {config : CSVImportConfig}
    {p : ℚ × TransactionType}
    (hamt : config.field_mapping.amount_column = none)
    (hdc : ¬ (truthy config.field_mapping.debit_column = true ∧
      truthy config.field_mapping.credit_column = true))
    (hok : amountAndType row config = Except.ok p) :
    p.1 = 0 := by
  unfold amountAndType at hok
  rw [if_neg hdc] at hok
  simp only [exceptBind_ok, exceptPure_ok] at hok
  obtain ⟨a, ha, hrest⟩ := hok
  rw [hamt] at ha
  have ha0 : a = "" := rowGetStrip_none_ok ha
  subst ha0
  have hz : (if isBrazilian config then _parse_brazilian_amount "" else _parse_amount "")
      = 0 := by split <;> rfl
  rw [hz] at hrest
  split at hrest
  · simp only [exceptBind_ok, exceptPure_ok] at hrest
    obtain ⟨b, -, hifs⟩ := hrest
    repeat' split at hifs
    all_goals simp only [exceptPure_ok] at hifs
    all_goals simp [← hifs]
  · split at hrest
    · simp only [exceptBind_ok, exceptPure_ok] at hrest
      obtain ⟨b, -, hifs⟩ := hrest
      simp [← hifs]
    · simp only [exceptPure_ok] at hrest
      simp [← hrest]

/-- With an operation column configured (and no debit/credit pair), an
operation value outside all four keyword vocabularies resolves the type to
`expense`, whatever the amount's sign and the `negative_means_expense`
flag. -/
theorem amountAndType_unrecognized_op {row : Row} {config : CSVImportConfig}
    {p : ℚ × TransactionType} {op0 : String}
    (hdc : ¬ (truthy config.field_mapping.debit_column = true ∧
      truthy config.field_mapping.credit_column = true))
    (hop : truthy config.field_mapping.operation_column = true)
    (hval : rowGetStrip row config.field_mapping.operation_column = Except.ok op0)
    (h1 : pyLower op0 ∉ buyOps) (h2 : pyLower op0 ∉ sellOps)
    (h3 : pyLower op0 ∉ incomeOps) (h4 : pyLower op0 ∉ transferOps)
    (hok : amountAndType row config = Except.ok p) :
    p.2 = TransactionType.expense := by
  unfold amountAndType at hok
  rw [if_neg hdc] at hok
  simp only [exceptBind_ok, exceptPure_ok] at hok
  obtain ⟨a, -, hrest⟩ := hok
  rw [if_pos hop] at hrest
  simp only [exceptBind_ok, exceptPure_ok] at hrest
  obtain ⟨b, hb, hifs⟩ := hrest
  rw [hval] at hb
  injection hb with hb
  subst hb
  rw [if_neg h1, if_neg h2, if_neg h3, if_neg h4] at hifs
  simp only [exceptPure_ok] at hifs
  simp [← hifs]

/-- Projection of `parse_csv_file` on a non-empty file: the total row
count. -/
theorem parse_total_rows (fc : String) (config : CSVImportConfig)
    (ex : List Transaction) (now : DateTime) (h : ¬ (dictRows fc).isEmpty = true) :
    (parse_csv_file fc config ex now).total_rows = (prepRows fc config).length := by
  unfold parse_csv_file
  rw [if_neg h]

/-- Projection of `parse_csv_file` on a non-empty file: the valid count. -/
theorem parse_valid_rows (fc : String) (config : CSVImportConfig)
    (ex : List Transaction) (now : DateTime) (h : ¬ (dictRows fc).isEmpty = true) :
    (parse_csv_file fc config ex now).valid_rows =
      ((importLoop config ex now (prepRows fc config).enum).1.filter
        fun t => !t.has_error).length := by
  unfold parse_csv_file
  rw [if_neg h]

/-- Projection of `parse_csv_file` on a non-empty file: the duplicate
count. -/
theorem parse_dup_rows (fc : String) (config : CSVImportConfig)
    (ex : List Transaction) (now : DateTime) (h : ¬ (dictRows fc).isEmpty = true) :
    (parse_csv_file fc config ex now).duplicate_rows =
      (importLoop config ex now (prepRows fc config).enum).2.1 := by
  unfold parse_csv_file
  rw [if_neg h]

/-- Projection of `parse_csv_file` on a non-empty file: the error count. -/
theorem parse_err_rows (fc : String) (config : CSVImportConfig)
    (ex : List Transaction) (now : DateTime) (h : ¬ (dictRows fc).isEmpty = true) :
    (parse_csv_file fc config ex now).error_rows =
      (importLoop config ex now (prepRows fc config).enum).2.2 := by
  unfold parse_csv_file
  rw [if_neg h]

/-- Projection of `parse_csv_file` on a non-empty file: the preview list. -/
theorem parse_transactions (fc : String) (config : CSVImportConfig)
    (ex : List Transaction) (now : DateTime) (h : ¬ (dictRows fc).isEmpty = true) :
    (parse_csv_file fc config ex now).transactions =
      (importLoop config ex now (prepRows fc config).enum).1 := by
  unfold parse_csv_file
  rw [if_neg h]

section ClaimTheorems

attribute [local semireducible] Rat.mul Rat.inv Rat.add Rat.sub Rat.ofScientific

/-- Claim C1: `_check_duplicate` returns true iff some existing transaction
has the same calendar day as the candidate, an amount within strictly less
than 0.01 of the candidate's, and a case-insensitively equal description;
at identical day and description, an amount difference of exactly 0.01 is
not flagged while 0.009 is. -/
theorem c1_duplicate_rule :
    (∀ (description : String) (amount : ℚ) (date : DateTime)
        (existing : List Transaction),
      ((_check_duplicate description amount date existing).1 = true ↔
        ∃ tx ∈ existing, calDay tx.date = calDay date ∧
          |tx.amount - amount| < 1 / 100 ∧
          pyLower tx.description = pyLower description)) ∧
    (_check_duplicate "Latte" (10 + 1 / 100) (86400 * 3) [eurTx]).1 = false ∧
    (_check_duplicate "Latte" (10 + 9 / 1000) (86400 * 3) [eurTx]).1 = true := by
  refine ⟨?_, by decide, by decide⟩
  intro description amount date existing
  induction existing with
  | nil => simp [_check_duplicate]
  | cons tx rest ih =>
    unfold _check_duplicate
    split
    next h =>
      refine ⟨fun _ => ⟨tx, List.mem_cons_self tx rest, h⟩, fun _ => rfl⟩
    next h =>
      rw [ih]
      simp only [List.mem_cons]
      constructor
      · rintro ⟨x, hx, hP⟩
        exact ⟨x, Or.inr hx, hP⟩
      · rintro ⟨x, hx | hx, hP⟩
        · subst hx
          exact absurd hP h
        · exact ⟨x, hx, hP⟩

/-- Claim C2 (counterexample): on the one-row file `exTextA`, whose row is
both a duplicate of `exExistingA` and a date-range error under `exCfgA`,
the claimed invariant pair fails: `duplicate_rows = 1 > 0 = valid_rows`. -/
theorem c2_counterexample :
    ¬ ((parse_csv_file exTextA exCfgA exExistingA 0).valid_rows +
        (parse_csv_file exTextA exCfgA exExistingA 0).error_rows =
        (parse_csv_file exTextA exCfgA exExistingA 0).total_rows ∧
      (parse_csv_file exTextA exCfgA exExistingA 0).duplicate_rows ≤
        (parse_csv_file exTextA exCfgA exExistingA 0).valid_rows) := by
  decide

/-- Claim C2 (amended): for every preview produced by `parse_csv_file`,
`valid_rows + error_rows = total_rows`, and `duplicate_rows ≤ total_rows`
(the stronger bound `duplicate_rows ≤ valid_rows` fails because a row can
be counted both as a duplicate and as a date-range error). -/
theorem c2_row_count_invariant (file_content : String) (config : CSVImportConfig)
    (existing : List Transaction) (now : DateTime) :
    (parse_csv_file file_content config existing now).valid_rows +
        (parse_csv_file file_content config existing now).error_rows =
        (parse_csv_file file_content config existing now).total_rows ∧
      (parse_csv_file file_content config existing now).duplicate_rows ≤
        (parse_csv_file file_content config existing now).total_rows := by
  by_cases h : (dictRows file_content).isEmpty = true
  · unfold parse_csv_file
    rw [if_pos h]
    exact ⟨rfl, Nat.le_refl 0⟩
  · rw [parse_total_rows file_content config existing now h,
      parse_valid_rows file_content config existing now h,
      parse_dup_rows file_content config existing now h,
      parse_err_rows file_content config existing now h,
      importLoop_err_count, importLoop_dup_count]
    constructor
    · rw [countP_filter_not_add, importLoop_length, List.enum_length]
    · calc (importLoop config existing now (prepRows file_content config).enum).1.countP
            (fun t => t.is_duplicate)
          ≤ (importLoop config existing now (prepRows file_content config).enum).1.length :=
            List.countP_le_length _
        _ = (prepRows file_content config).length := by
            rw [importLoop_length, List.enum_length]

/-- The commit stage with both skip flags and no selection keeps exactly
the non-duplicate, non-error rows. -/
theorem commit_skip_all_length (p : CSVImportPreview) :
    (create_transactions_from_preview p true true none).length =
      p.transactions.countP fun t => !t.is_duplicate && !t.has_error := by
  unfold create_transactions_from_preview
  generalize p.transactions = l
  induction l with
  | nil => rfl
  | cons t l ih =>
    by_cases hd : t.is_duplicate <;> by_cases he : t.has_error <;>
      simp_all [List.filterMap_cons, List.countP_cons, hd, he]

/-- Claim C3 (counterexample): on the same one-row file, the commit stage
with both skip flags returns 0 records while `valid_rows - duplicate_rows`
is `-1`. -/
theorem c3_counterexample :
    ¬ (((create_transactions_from_preview (parse_csv_file exTextA exCfgA exExistingA 0)
        true true none).length : ℤ) =
      ((parse_csv_file exTextA exCfgA exExistingA 0).valid_rows : ℤ) -
        ((parse_csv_file exTextA exCfgA exExistingA 0).duplicate_rows : ℤ)) := by
  decide

/-- Claim C3 (amended): the commit stage with both skip flags and no
selection returns `valid_rows` minus the number of rows that are flagged
duplicate but not error; when no row is both duplicate and error this is
exactly `valid_rows - duplicate_rows` as originally claimed. -/
theorem c3_commit_subset_law (file_content : String) (config : CSVImportConfig)
    (existing : List Transaction) (now : DateTime) :
    ((create_transactions_from_preview (parse_csv_file file_content config existing now)
        true true none).length +
      (parse_csv_file file_content config existing now).transactions.countP
        (fun t => t.is_duplicate && !t.has_error) =
      (parse_csv_file file_content config existing now).valid_rows) ∧
    ((parse_csv_file file_content config existing now).transactions.countP
        (fun t => t.is_duplicate && t.has_error) = 0 →
      (create_transactions_from_preview (parse_csv_file file_content config existing now)
        true true none).length +
        (parse_csv_file file_content config existing now).duplicate_rows =
        (parse_csv_file file_content config existing now).valid_rows) := by
  have hvalid : (parse_csv_file file_content config existing now).valid_rows =
      (parse_csv_file file_content config existing now).transactions.countP
        fun t => !t.has_error := by
    by_cases h : (dictRows file_content).isEmpty = true
    · unfold parse_csv_file
      rw [if_pos h]
      rfl
    · rw [parse_valid_rows file_content config existing now h,
        parse_transactions file_content config existing now h,
        List.countP_eq_length_filter]
  have hdup : (parse_csv_file file_content config existing now).duplicate_rows =
      (parse_csv_file file_content config existing now).transactions.countP
        fun t => t.is_duplicate := by
    by_cases h : (dictRows file_content).isEmpty = true
    · unfold parse_csv_file
      rw [if_pos h]
      rfl
    · rw [parse_dup_rows file_content config existing now h,
        parse_transactions file_content config existing now h,
        importLoop_dup_count]
  have h1 : (create_transactions_from_preview
      (parse_csv_file file_content config existing now) true true none).length +
      (parse_csv_file file_content config existing now).transactions.countP
        (fun t => t.is_duplicate && !t.has_error) =
      (parse_csv_file file_content config existing now).valid_rows := by
    rw [commit_skip_all_length, hvalid]
    exact countP_not_and_split _ _ _
  refine ⟨h1, fun hzero => ?_⟩
  have hsplit := countP_and_split
    (parse_csv_file file_content config existing now).transactions
    (fun t => t.is_duplicate) (fun t => t.has_error)
  rw [hzero] at hsplit
  omega

/-- Witness for C3: on a file with no duplicate-and-error row the original
subset law holds. -/
theorem c3_commit_subset_law_witness :
    (create_transactions_from_preview (parse_csv_file exTextTwo exCfgB [] 0)
        true true none).length +
      (parse_csv_file exTextTwo exCfgB [] 0).duplicate_rows =
      (parse_csv_file exTextTwo exCfgB [] 0).valid_rows :=
  (c3_commit_subset_law exTextTwo exCfgB [] 0).2 (by decide)

/-- The import loop ignores the clock whenever every row parses without
raising. -/
theorem importLoop_now_indep (config : CSVImportConfig) (ex : List Transaction)
    (now₁ now₂ : DateTime) (l : List (Nat × Row))
    (h : ∀ q ∈ l, isOkE (_parse_row q.2 q.1 config ex) = true) :
    importLoop config ex now₁ l = importLoop config ex now₂ l := by
  induction l with
  | nil => rfl
  | cons q l ih =>
    obtain ⟨idx, row⟩ := q
    have hq := h _ (List.mem_cons_self _ _)
    rw [isOkE_iff] at hq
    obtain ⟨t, ht⟩ := hq
    unfold importLoop
    rw [ht, ih fun q hq => h q (List.mem_cons_of_mem _ hq)]

/-- Claim C4 (counterexample): on the file `exTextBad`, whose single row
raises a date-parse error, two runs with identical text, config and
existing set but different clock values produce different previews (the
error preview's `date` is `datetime.now()`). -/
theorem c4_counterexample :
    ¬ (parse_csv_file exTextBad exCfgB [] 0 =
        parse_csv_file exTextBad exCfgB [] 86400) := by
  decide

/-- Claim C4 (amended): `parse_csv_file` is deterministic — independent of
the clock — whenever no row raises; only the `date` field of the
error-preview built for a raising row depends on `datetime.now()`. -/
theorem c4_preview_deterministic (file_content : String) (config : CSVImportConfig)
    (existing : List Transaction) (now₁ now₂ : DateTime)
    (h : ∀ q ∈ (prepRows file_content config).enum,
      isOkE (_parse_row q.2 q.1 config existing) = true) :
    parse_csv_file file_content config existing now₁ =
      parse_csv_file file_content config existing now₂ := by
  unfold parse_csv_file
  split
  · rfl
  · simp only [importLoop_now_indep config existing now₁ now₂ _ h]

/-- Witness for C4: on the well-formed two-row file the previews at two
different clock values agree. -/
theorem c4_preview_deterministic_witness :
    parse_csv_file exTextTwo exCfgB [] 0 = parse_csv_file exTextTwo exCfgB [] 12345 :=
  c4_preview_deterministic exTextTwo exCfgB [] 0 12345 (by decide)

/-- Claim C5 (counterexample): under `noAmtCfg`, which configures no amount
column and no debit/credit pair, the one-row file parses with no error at
all — the claimed universal row failure (and fatal configuration error)
does not happen. -/
theorem c5_counterexample :
    ¬ (∀ t ∈ (parse_csv_file noAmtText noAmtCfg [] 0).transactions,
        t.has_error = true) := by
  decide

/-- Claim C5 (amended): with no amount-resolution path configured, a row
that parses at all succeeds with amount `0` (and, absent a date-range
filter, without an error flag) — no fatal configuration failure is
raised. -/
theorem c5_no_amount_path (row : Row) (i : Nat) (config : CSVImportConfig)
    (ex : List Transaction) (t : TransactionPreview)
    (hamt : config.field_mapping.amount_column = none)
    (hdc : ¬ (truthy config.field_mapping.debit_column = true ∧
      truthy config.field_mapping.credit_column = true))
    (hok : _parse_row row i config ex = Except.ok t) :
    t.amount = 0 ∧
      (config.date_range_start = none → config.date_range_end = none →
        t.has_error = false) := by
  obtain ⟨-, -, p, hp, hamt', -, herr⟩ := _parse_row_ok_spec hok
  have h0 := amountAndType_no_amount hamt hdc hp
  constructor
  · rw [hamt', h0]
    simp
  · intro h1 h2
    rw [herr]
    unfold dateRangeCheck
    rw [h1, h2]

/-- Witness for C5: the concrete row of `noAmtText` parses successfully
with amount `0` and no error under the no-amount-path configuration. -/
theorem c5_no_amount_path_witness :
    ∃ t, _parse_row noAmtRow 0 noAmtCfg [] = Except.ok t ∧ t.amount = 0 ∧
      t.has_error = false := by
  have hOk : isOkE (_parse_row noAmtRow 0 noAmtCfg []) = true := by decide
  rw [isOkE_iff] at hOk
  obtain ⟨t, ht⟩ := hOk
  have h := c5_no_amount_path noAmtRow 0 noAmtCfg [] t rfl (by decide) ht
  exact ⟨t, ht, h.1, h.2 rfl rfl⟩

/-- Claim C6: the Brazilian parser maps `"1.234,56"` to `1234.56` and the
anglophone parser maps `"1,234.56"` to `1234.56`; each parser applied to
the other dialect's string yields a value different from `1234.56` (both
produce `1.23456`). -/
theorem c6_locale_parsers :
    _parse_brazilian_amount "1.234,56" = 1234.56 ∧
    _parse_amount "1,234.56" = 1234.56 ∧
    _parse_brazilian_amount "1,234.56" ≠ 1234.56 ∧
    _parse_amount "1.234,56" ≠ 1234.56 := by
  decide

/-- Each preview produced by the import loop carries the 0-based index the
loop passed for its row, on the success and on the error path alike. -/
theorem importLoop_row_numbers (config : CSVImportConfig) (ex : List Transaction)
    (now : DateTime) (l : List (Nat × Row)) :
    (importLoop config ex now l).1.map (fun t => t.row_number) = l.map Prod.fst := by
  induction l with
  | nil => rfl
  | cons q l ih =>
    obtain ⟨idx, row⟩ := q
    unfold importLoop
    cases h : _parse_row row idx config ex with
    | ok t => simp [ih, (_parse_row_ok_spec h).1]
    | error e => simp [ih, errorPreview]

/-- Claim C7 (counterexample): on the two-row file the row numbers are
`[0, 1]`, not the claimed 1-based `[1, 2]`. -/
theorem c7_counterexample :
    ¬ ((parse_csv_file exTextTwo exCfgB [] 0).transactions.map
        (fun t => t.row_number) = [1, 2]) := by
  decide

/-- Claim C7 (amended): row numbers are 0-based — for every input, the
preview list's row numbers are exactly `0, 1, 2, …` in order, so the k-th
parsed data row (k starting at 1) carries `row_number = k - 1`. -/
theorem c7_row_numbers (file_content : String) (config : CSVImportConfig)
    (existing : List Transaction) (now : DateTime) :
    (parse_csv_file file_content config existing now).transactions.map
        (fun t => t.row_number) =
      List.range
        (parse_csv_file file_content config existing now).transactions.length := by
  by_cases h : (dictRows file_content).isEmpty = true
  · unfold parse_csv_file
    rw [if_pos h]
    rfl
  · rw [parse_transactions file_content config existing now h,
      importLoop_row_numbers, importLoop_length, List.enum_length, List.enum_map_fst]

/-- Claim C8: the commit stage never copies `fees` — overwriting the fees
of every preview row with arbitrary values leaves the emitted
`TransactionCreate` list unchanged (the output type has no fees field). -/
theorem c8_commit_drops_fees (p : CSVImportPreview)
    (f : TransactionPreview → Option ℚ) (skip_duplicates skip_errors : Bool)
    (selected_rows : Option (List Nat)) :
    create_transactions_from_preview
        { p with transactions := p.transactions.map fun t => { t with fees := f t } }
        skip_duplicates skip_errors selected_rows =
      create_transactions_from_preview p skip_duplicates skip_errors selected_rows := by
  unfold create_transactions_from_preview
  rw [List.filterMap_map]
  rfl

/-- Claim C9: duplicate detection ignores currency — an existing
transaction matching on calendar day, amount tolerance and
case-insensitive description flags the candidate as duplicate even when
its currency differs from the candidate's. -/
theorem c9_duplicate_ignores_currency (description : String) (amount : ℚ)
    (date : DateTime) (candidate_currency : String) (tx : Transaction)
    (pre post : List Transaction)
    (hcur : tx.currency ≠ candidate_currency)
    (hday : calDay tx.date = calDay date)
    (hamt : |tx.amount - amount| < 1 / 100)
    (hdesc : pyLower tx.description = pyLower description) :
    (_check_duplicate description amount date (pre ++ tx :: post)).1 = true := by
  induction pre with
  | nil =>
    rw [List.nil_append]
    unfold _check_duplicate
    rw [if_pos ⟨hday, hamt, hdesc⟩]
  | cons tx2 rest ih =>
    rw [List.cons_append]
    unfold _check_duplicate
    split
    · rfl
    · exact ih

/-- Witness for C9: the EUR transaction `eurTx` flags a USD candidate with
matching day, amount and description. -/
theorem c9_duplicate_ignores_currency_witness :
    (_check_duplicate "latte" 10 (86400 * 3) [eurTx]).1 = true := by
  have h := c9_duplicate_ignores_currency "latte" 10 (86400 * 3) "USD" eurTx [] []
    (by decide) (by decide) (by decide) (by decide)
  simpa using h

/-- Claim C10: in the single-signed-amount path, an operation column whose
(trimmed, lower-cased) value matches none of the keyword vocabularies
yields type `expense`, for every amount sign and every value of
`negative_means_expense`; sign inference is not consulted. -/
theorem c10_unrecognized_operation_expense (row : Row) (i : Nat)
    (config : CSVImportConfig) (ex : List Transaction) (t : TransactionPreview)
    (op0 : String)
    (hdc : ¬ (truthy config.field_mapping.debit_column = true ∧
      truthy config.field_mapping.credit_column = true))
    (hop : truthy config.field_mapping.operation_column = true)
    (hval : rowGetStrip row config.field_mapping.operation_column = Except.ok op0)
    (h1 : pyLower op0 ∉ buyOps) (h2 : pyLower op0 ∉ sellOps)
    (h3 : pyLower op0 ∉ incomeOps) (h4 : pyLower op0 ∉ transferOps)
    (hok : _parse_row row i config ex = Except.ok t) :
    t.type = TransactionType.expense := by
  obtain ⟨-, -, p, hp, -, hty, -⟩ := _parse_row_ok_spec hok
  rw [hty, amountAndType_unrecognized_op hdc hop hval h1 h2 h3 h4 hp]

/-- Witness for C10: the concrete row `opRow` has operation value `"Zzz"`
(outside all vocabularies), a negative amount, and a configuration with
`negative_means_expense = false`; its preview still has type `expense`. -/
theorem c10_unrecognized_operation_expense_witness :
    ∃ t, _parse_row opRow 0 opCfg [] = Except.ok t ∧
      t.type = TransactionType.expense := by
  have hOk : isOkE (_parse_row opRow 0 opCfg []) = true := by decide
  rw [isOkE_iff] at hOk
  obtain ⟨t, ht⟩ := hOk
  exact ⟨t, ht, c10_unrecognized_operation_expense opRow 0 opCfg [] t "Zzz"
    (by decide) (by decide) rfl (by decide) (by decide) (by decide)
    (by decide) ht⟩

end ClaimTheorems

end Canopy
